import Mathlib

set_option autoImplicit false

namespace PF2eVisioner

/-! Shallow embedding of src/scripts/visibility/auto-visibility/ConditionManager.js.

The host game engine exposes actors, tokens and condition collections through
several redundant accessor shapes; the module probes them defensively.  We model
each accessor that may be absent as an Option, truthiness of a chained lookup as
a Bool-valued function, and the one exception site the source wraps in
try/catch (the conditions collection scan) as an explicit scanThrows flag whose
catch yields false, exactly as the source initialises the scan result to false
and ignores the error. -/

/-- One entry of the host actor conditions collection: a condition object with
optional slug and key string fields (absent fields compare unequal to any
slug, as in the source scan). -/
structure Cond where
  slug : Option String
  key : Option String

/-- The host actor iterable conditions collection: an optional set-style
membership method (conditions.has may be absent), the underlying items the
collection scan iterates, and a flag modelling the scan raising an exception
(which the source catches, leaving the scan result false). -/
structure CondCollection where
  hasMethod : Option (String → Bool)
  items : List Cond
  scanThrows : Bool

/-- A host actor as ConditionManager reads it.  hasCondition models the
optional direct predicate method; systemConditionActive models truthiness of
the chain system?.conditions?.[slug]?.active (false when any link is absent);
conditions is the optional collection; perceptionSensesHas models the optional
chain perception?.senses?.has; systemPerceptionSenses models truthiness of the
chain system?.perception?.senses?.[slug]. -/
structure Actor where
  id : String
  hasCondition : Option (String → Bool)
  systemConditionActive : String → Bool
  conditions : Option CondCollection
  perceptionSensesHas : Option (String → Bool)
  systemPerceptionSenses : String → Bool

/-- The persisted token document.  invisibilityFlags models the
flags.pf2e-visioner.invisibility namespace: none means the namespace is
absent; an entry (observerId, b) models the record mapping observerId to an
object whose wasVisible field is b. -/
structure TokenDocument where
  id : String
  invisibilityFlags : Option (List (String × Bool))

/-- A scene token.  refId models host object identity, used by the source
reference comparison otherToken === token; actor may be absent. -/
structure Token where
  refId : Nat
  actor : Option Actor
  doc : TokenDocument

/-- Accessor path 1 of a condition probe: the direct predicate
actor?.hasCondition?.(slug).  Absent actor or method reports false. -/
def probePathDirect (oa : Option Actor) (slug : String) : Bool :=
  match oa with
  | some a =>
    match a.hasCondition with
    | some f => f slug
    | none => false
  | none => false

/-- Accessor path 2 of a condition probe: the nested state flag
actor?.system?.conditions?.[slug]?.active.  Absent actor reports false. -/
def probePathState (oa : Option Actor) (slug : String) : Bool :=
  match oa with
  | some a => a.systemConditionActive slug
  | none => false

/-- Accessor path 3 of a condition probe: the set-membership test
actor?.conditions?.has?.(slug).  Absent actor, collection or method reports
false. -/
def probePathHas (oa : Option Actor) (slug : String) : Bool :=
  match oa with
  | some a =>
    match a.conditions with
    | some c =>
      match c.hasMethod with
      | some h => h slug
      | none => false
    | none => false
  | none => false

/-- Accessor path 4 of a condition probe: the linear scan of the conditions
collection matching slug or key.  Absent actor or collection reports false,
and an exception during the scan is caught and reports false. -/
def probePathScan (oa : Option Actor) (slug : String) : Bool :=
  match oa with
  | some a =>
    match a.conditions with
    | some c =>
      if c.scanThrows then false
      else c.items.any (fun cond => cond.slug == some slug || cond.key == some slug)
    | none => false
  | none => false

/-- isBlinded from ConditionManager (lines 36-58): probes the blinded
condition through the four accessor strategies and ORs the results; the
collection scan is wrapped in try/catch. -/
def isBlinded (observer : Token) : Bool :=
  let hasConditionMethod :=
    match observer.actor with
    | some a => (match a.hasCondition with | some f => f "blinded" | none => false)
    | none => false
  let systemConditionActive :=
    match observer.actor with
    | some a => a.systemConditionActive "blinded"
    | none => false
  let conditionsHas :=
    match observer.actor with
    | some a =>
      (match a.conditions with
       | some c => (match c.hasMethod with | some h => h "blinded" | none => false)
       | none => false)
    | none => false
  let conditionsCollectionHas :=
    match observer.actor with
    | some a =>
      (match a.conditions with
       | some c =>
         if c.scanThrows then false
         else c.items.any (fun cond => cond.slug == some "blinded" || cond.key == some "blinded")
       | none => false)
    | none => false
  hasConditionMethod || systemConditionActive || conditionsHas || conditionsCollectionHas

/-- isDazzled from ConditionManager (lines 65-87): same four-strategy probe
for the dazzled condition. -/
def isDazzled (observer : Token) : Bool :=
  let hasConditionMethod :=
    match observer.actor with
    | some a => (match a.hasCondition with | some f => f "dazzled" | none => false)
    | none => false
  let systemConditionActive :=
    match observer.actor with
    | some a => a.systemConditionActive "dazzled"
    | none => false
  let conditionsHas :=
    match observer.actor with
    | some a =>
      (match a.conditions with
       | some c => (match c.hasMethod with | some h => h "dazzled" | none => false)
       | none => false)
    | none => false
  let conditionsCollectionHas :=
    match observer.actor with
    | some a =>
      (match a.conditions with
       | some c =>
         if c.scanThrows then false
         else c.items.any (fun cond => cond.slug == some "dazzled" || cond.key == some "dazzled")
       | none => false)
    | none => false
  hasConditionMethod || systemConditionActive || conditionsHas || conditionsCollectionHas

/-- isDeafened from ConditionManager (lines 94-116): same four-strategy probe
for the deafened condition. -/
def isDeafened (observer : Token) : Bool :=
  let hasConditionMethod :=
    match observer.actor with
    | some a => (match a.hasCondition with | some f => f "deafened" | none => false)
    | none => false
  let systemConditionActive :=
    match observer.actor with
    | some a => a.systemConditionActive "deafened"
    | none => false
  let conditionsHas :=
    match observer.actor with
    | some a =>
      (match a.conditions with
       | some c => (match c.hasMethod with | some h => h "deafened" | none => false)
       | none => false)
    | none => false
  let conditionsCollectionHas :=
    match observer.actor with
    | some a =>
      (match a.conditions with
       | some c =>
         if c.scanThrows then false
         else c.items.any (fun cond => cond.slug == some "deafened" || cond.key == some "deafened")
       | none => false)
    | none => false
  hasConditionMethod || systemConditionActive || conditionsHas || conditionsCollectionHas

/-- isInvisibleTo from ConditionManager (lines 124-154): probes the invisible
condition on the target through the four accessor strategies; if invisible,
checks whether the observer actor declares a see-invisibility sense through
either of two accessor shapes and returns the negation; otherwise returns
false. -/
def isInvisibleTo (observer target : Token) : Bool :=
  let hasConditionMethod :=
    match target.actor with
    | some a => (match a.hasCondition with | some f => f "invisible" | none => false)
    | none => false
  let systemConditionActive :=
    match target.actor with
    | some a => a.systemConditionActive "invisible"
    | none => false
  let conditionsHas :=
    match target.actor with
    | some a =>
      (match a.conditions with
       | some c => (match c.hasMethod with | some h => h "invisible" | none => false)
       | none => false)
    | none => false
  let conditionsCollectionHas :=
    match target.actor with
    | some a =>
      (match a.conditions with
       | some c =>
         if c.scanThrows then false
         else c.items.any (fun cond => cond.slug == some "invisible" || cond.key == some "invisible")
       | none => false)
    | none => false
  let hasInvisible :=
    hasConditionMethod || systemConditionActive || conditionsHas || conditionsCollectionHas
  if hasInvisible then
    let canSeeInvisible :=
      (match observer.actor with
       | some a => (match a.perceptionSensesHas with | some h => h "see-invisibility" | none => false)
       | none => false)
      ||
      (match observer.actor with
       | some a => a.systemPerceptionSenses "see-invisibility"
       | none => false)
    !canSeeInvisible
  else false

/-- The four-strategy OR for a given condition slug, as the probes compute
it: direct predicate, nested state flag, set-membership test, collection
scan. -/
def condFourStrategy (oa : Option Actor) (slug : String) : Bool :=
  probePathDirect oa slug || probePathState oa slug || probePathHas oa slug || probePathScan oa slug

/-- The see-invisibility check of isInvisibleTo: either of the two sense
accessor shapes reports the sense on the observer actor. -/
def observerSeesInvisibility (oa : Option Actor) : Bool :=
  (match oa with
   | some a => (match a.perceptionSensesHas with | some h => h "see-invisibility" | none => false)
   | none => false)
  ||
  (match oa with
   | some a => a.systemPerceptionSenses "see-invisibility"
   | none => false)

/-- getInvisibilityState from ConditionManager (lines 163-201).  The observer
and target are optional (the source chains observer?.document?.id); a
document id is falsy exactly when it is the empty string.  The externally
supplied hasSneakOverride predicate is modelled by the boolean it resolves to
on the one pair it could be awaited on; canSeeNormally is the caller-supplied
boolean, defaulting to false at the call site.  The flags read models
target.document.flags?.[pf2e-visioner]?.invisibility with an empty-record
default, and the wasVisible lookup is falsy when the entry is absent. -/
def getInvisibilityState (observer target : Option Token) (hasSneakOverride : Bool)
    (canSeeNormally : Bool) : String :=
  match observer, target with
  | some obs, some tgt =>
    if obs.doc.id == "" || tgt.doc.id == "" then "undetected"
    else
      let invisibilityFlags := tgt.doc.invisibilityFlags.getD []
      let wasVisibleWhenInvisible := (invisibilityFlags.lookup obs.doc.id).getD false
      if canSeeNormally then
        if hasSneakOverride then "undetected" else "hidden"
      else if wasVisibleWhenInvisible then
        if hasSneakOverride then "undetected" else "hidden"
      else "undetected"
  | _, _ => "undetected"

/-- Both references resolve to truthy document identifiers: the guard on
lines 164-167 passes. -/
def resolvedIds (observer target : Option Token) : Bool :=
  match observer, target with
  | some obs, some tgt => !(obs.doc.id == "") && !(tgt.doc.id == "")
  | _, _ => false

/-- The persisted flag entry getInvisibilityState reads for this observer:
the invisibility namespace of the target document, defaulted to the empty
record, looked up at the observer id. -/
def flagEntry (observer target : Option Token) : Option Bool :=
  match observer, target with
  | some obs, some tgt => (tgt.doc.invisibilityFlags.getD []).lookup obs.doc.id
  | _, _ => none

/-- The wasVisibleWhenInvisible boolean of getInvisibilityState: truthy when
the flag entry exists and carries wasVisible true. -/
def wasVisibleFlag (observer target : Option Token) : Bool :=
  (flagEntry observer target).getD false

/-- jsTruthyOr models the JavaScript expression v || d for an optional
string value: an absent or empty (falsy) value yields the default. -/
def jsTruthyOr (v : Option String) (d : String) : String :=
  match v with
  | some s => if s == "" then d else s
  | none => d

/-- jsInsert models JavaScript object property assignment on the record
under construction: an existing key is overwritten in place, a new key is
appended, preserving insertion order. -/
def jsInsert (l : List (String × Bool)) (k : String) (v : Bool) : List (String × Bool) :=
  if l.any (fun p => p.1 == k) then l.map (fun p => if p.1 == k then (k, v) else p)
  else l ++ [(k, v)]

/-- The loop of recordVisibilityBeforeInvisibility (lines 239-249): walk the
scene placeables, skip the token itself (reference comparison, modelled by
refId) and tokens without a live actor, default a falsy visibility-map entry
to observed, and record wasVisible true for observers whose current
visibility is observed or concealed. -/
def recordLoop (token : Token) (vmap : String → Option String) :
    List Token → List (String × Bool) → List (String × Bool)
  | [], acc => acc
  | otherToken :: rest, acc =>
    if otherToken.refId == token.refId || otherToken.actor.isNone then
      recordLoop token vmap rest acc
    else
      let observerId := otherToken.doc.id
      let currentVisibility := jsTruthyOr (vmap observerId) "observed"
      if currentVisibility == "observed" || currentVisibility == "concealed" then
        recordLoop token vmap rest (jsInsert acc observerId true)
      else
        recordLoop token vmap rest acc

/-- The invisibilityFlags record computed by recordVisibilityBeforeInvisibility
for a token, starting from the empty record. -/
def recordFlagsComputed (scene : List Token) (vmap : String → Option String)
    (token : Token) : List (String × Bool) :=
  recordLoop token vmap scene []

/-- Whether recordVisibilityBeforeInvisibility performs its setFlag write:
only when the computed record has at least one key (lines 252-254). -/
def recordWritePerformed (scene : List Token) (vmap : String → Option String)
    (token : Token) : Bool :=
  !(recordFlagsComputed scene vmap token).isEmpty

/-- The content of the invisibility flag namespace of the token document
after recordVisibilityBeforeInvisibility: the computed record when a write is
performed, the prior content untouched otherwise. -/
def recordNewNamespace (scene : List Token) (vmap : String → Option String)
    (token : Token) : Option (List (String × Bool)) :=
  if recordWritePerformed scene vmap token then some (recordFlagsComputed scene vmap token)
  else token.doc.invisibilityFlags

/-- The invisibility check of handleInvisibilityChange (lines 213-216): the
direct predicate, the nested state flag and the set-membership test, ORed.
The source omits the conditions collection scan here. -/
def handlerHasInvisibility (actor : Actor) : Bool :=
  (match actor.hasCondition with | some f => f "invisible" | none => false)
  || actor.systemConditionActive "invisible"
  || (match actor.conditions with
      | some c => (match c.hasMethod with | some h => h "invisible" | none => false)
      | none => false)

/-- The filter of handleInvisibilityChange (line 209): the token actor
resolves and its id equals the id of the changed actor. -/
def tokenBelongsTo (token : Token) (actor : Actor) : Bool :=
  match token.actor with
  | some a => a.id == actor.id
  | none => false

/-- The effect of one iteration of the handleInvisibilityChange loop on one
scene token: a matching token gets its invisibility namespace recomputed
(condition present) or removed via unsetFlag (condition absent); other
tokens are untouched.  vmapOf models the external getVisibilityMap provider,
keyed by token identity. -/
def updateTokenOnInvisibilityChange (scene : List Token)
    (vmapOf : Nat → String → Option String) (actor : Actor) (token : Token) : Token :=
  if tokenBelongsTo token actor then
    if handlerHasInvisibility actor then
      { token with doc :=
        { token.doc with invisibilityFlags := recordNewNamespace scene (vmapOf token.refId) token } }
    else
      { token with doc := { token.doc with invisibilityFlags := none } }
  else token

/-- handleInvisibilityChange from ConditionManager (lines 207-226): every
token of the scene bound to the actor is recorded or cleared; the record for
each token reads the same placeables list, whose membership the loop does not
change. -/
def handleInvisibilityChange (scene : List Token)
    (vmapOf : Nat → String → Option String) (actor : Actor) : List Token :=
  scene.map (updateTokenOnInvisibilityChange scene vmapOf actor)

/-- clearInvisibilityFlags (lines 261-271): unsetFlag leaves the namespace
absent on the token document. -/
def clearInvisibilityFlags (token : Token) : Token :=
  { token with doc := { token.doc with invisibilityFlags := none } }

/-- An observer token qualifies for a wasVisible entry toward the target
token: it is a different token object, has a live actor, and its visibility
map entry, defaulted to observed when falsy, is observed or concealed. -/
def observerQualifies (token : Token) (vmap : String → Option String) (other : Token) : Bool :=
  !(other.refId == token.refId) && other.actor.isSome &&
    (jsTruthyOr (vmap other.doc.id) "observed" == "observed"
      || jsTruthyOr (vmap other.doc.id) "observed" == "concealed")

/-- A record has a key: some entry of the association list carries it. -/
def hasKey (l : List (String × Bool)) (k : String) : Prop :=
  ∃ v, (k, v) ∈ l

/-- Whether the conditions collection scan of this actor raises an exception;
the probes catch it and count that strategy as negative. -/
def probeScanThrows (oa : Option Actor) : Bool :=
  match oa with
  | some a =>
    match a.conditions with
    | some c => c.scanThrows
    | none => false
  | none => false

/-- The direct predicate accessor is missing on this actor (or the actor
itself is absent). -/
def directAccessorMissing (oa : Option Actor) : Prop :=
  match oa with
  | some a => a.hasCondition = none
  | none => True

/-- Sample actor carrying only the invisible condition, reported by the
direct predicate accessor. -/
def actorInvisibleOnly : Actor where
  id := "a1"
  hasCondition := some (fun s => s == "invisible")
  systemConditionActive := fun _ => false
  conditions := none
  perceptionSensesHas := none
  systemPerceptionSenses := fun _ => false

/-- Sample actor with no conditions on any accessor path. -/
def actorLive : Actor where
  id := "b1"
  hasCondition := none
  systemConditionActive := fun _ => false
  conditions := none
  perceptionSensesHas := none
  systemPerceptionSenses := fun _ => false

/-- Sample actor with the same id as actorInvisibleOnly but no invisible
condition on any accessor path. -/
def actorVisible : Actor where
  id := "a1"
  hasCondition := some (fun _ => false)
  systemConditionActive := fun _ => false
  conditions := none
  perceptionSensesHas := none
  systemPerceptionSenses := fun _ => false

/-- Sample actor whose only positive accessor path for the invisible
condition is the conditions collection scan. -/
def actorScanOnlyInvisible : Actor where
  id := "a2"
  hasCondition := none
  systemConditionActive := fun _ => false
  conditions := some { hasMethod := none, items := [{ slug := some "invisible", key := none }], scanThrows := false }
  perceptionSensesHas := none
  systemPerceptionSenses := fun _ => false

/-- Sample actor whose direct predicate reports blinded while the conditions
collection scan raises. -/
def actorThrowingScan : Actor where
  id := "a7"
  hasCondition := some (fun s => s == "blinded")
  systemConditionActive := fun _ => false
  conditions := some { hasMethod := none, items := [], scanThrows := true }
  perceptionSensesHas := none
  systemPerceptionSenses := fun _ => false

/-- Sample token without an actor. -/
def tokenPlain : Token := ⟨5, none, ⟨"t0", none⟩⟩

/-- Sample token bound to actorInvisibleOnly. -/
def tokenInvisible : Token := ⟨0, some actorInvisibleOnly, ⟨"t1", none⟩⟩

/-- Sample observer token with a live actor, document id o1. -/
def obsToken : Token := ⟨1, some actorLive, ⟨"o1", none⟩⟩

/-- Sample token whose persisted flags mark observer t0 as wasVisible. -/
def tokenFlagged : Token := ⟨2, none, ⟨"t2", some [("t0", true)]⟩⟩

/-- Sample token bound to actorVisible, with stale invisibility flags. -/
def clearedToken : Token := ⟨4, some actorVisible, ⟨"t4", some [("o1", true)]⟩⟩

/-- Sample token whose actor scan throws. -/
def tokenScanThrows : Token := ⟨6, some actorThrowingScan, ⟨"t6", none⟩⟩

/-- Sample scene holding the invisible target and one live observer. -/
def invScene : List Token := [tokenInvisible, obsToken]

/-- Sample scene holding only clearedToken. -/
def clearScene : List Token := [clearedToken]

/-- Sample visibility map with no recorded entries. -/
def emptyVmap : String → Option String := fun _ => none

/-- Sample visibility map provider with no recorded entries for any token. -/
def emptyVmapOf : Nat → String → Option String := fun _ _ => none

theorem isBlinded_eq_fourStrategy (t : Token) :
    isBlinded t = condFourStrategy t.actor "blinded" := by
  unfold isBlinded condFourStrategy probePathDirect probePathState probePathHas probePathScan
  rfl

theorem isDazzled_eq_fourStrategy (t : Token) :
    isDazzled t = condFourStrategy t.actor "dazzled" := by
  unfold isDazzled condFourStrategy probePathDirect probePathState probePathHas probePathScan
  rfl

theorem isDeafened_eq_fourStrategy (t : Token) :
    isDeafened t = condFourStrategy t.actor "deafened" := by
  unfold isDeafened condFourStrategy probePathDirect probePathState probePathHas probePathScan
  rfl

theorem isInvisibleTo_eq (o t : Token) :
    isInvisibleTo o t = (condFourStrategy t.actor "invisible" && !observerSeesInvisibility o.actor) := by
  have hdef : isInvisibleTo o t =
      (if condFourStrategy t.actor "invisible" then !observerSeesInvisibility o.actor else false) := rfl
  rw [hdef]
  cases condFourStrategy t.actor "invisible" <;> simp

theorem jsInsert_eq_map (l : List (String × Bool)) (k : String) (v : Bool)
    (h : l.any (fun p => p.1 == k) = true) :
    jsInsert l k v = l.map (fun p => if p.1 == k then (k, v) else p) := by
  simp [jsInsert, h]

theorem jsInsert_eq_append (l : List (String × Bool)) (k : String) (v : Bool)
    (h : l.any (fun p => p.1 == k) = false) :
    jsInsert l k v = l ++ [(k, v)] := by
  simp [jsInsert, h]

theorem hasKey_jsInsert (l : List (String × Bool)) (k0 k : String) (v0 : Bool) :
    hasKey (jsInsert l k0 v0) k ↔ hasKey l k ∨ k = k0 := by
  unfold hasKey
  cases h : l.any (fun p => p.1 == k0) with
  | false =>
    rw [jsInsert_eq_append l k0 v0 h]
    simp only [List.mem_append, List.mem_singleton]
    constructor
    · rintro ⟨v, hv | hv⟩
      · exact Or.inl ⟨v, hv⟩
      · cases hv; exact Or.inr rfl
    · rintro (⟨v, hv⟩ | rfl)
      · exact ⟨v, Or.inl hv⟩
      · exact ⟨v0, Or.inr rfl⟩
  | true =>
    rw [jsInsert_eq_map l k0 v0 h]
    constructor
    · rintro ⟨v, hv⟩
      rw [List.mem_map] at hv
      obtain ⟨⟨pk, pv⟩, hp, hfp⟩ := hv
      by_cases hpk : pk = k0
      · simp only [hpk, beq_self_eq_true, if_true, Prod.mk.injEq] at hfp
        exact Or.inr hfp.1.symm
      · simp only [beq_eq_false_iff_ne.mpr hpk, Bool.false_eq_true, if_false,
          Prod.mk.injEq] at hfp
        exact Or.inl ⟨pv, hfp.1 ▸ hfp.2 ▸ hp⟩
    · rintro (⟨v, hv⟩ | rfl)
      · by_cases hk : k = k0
        · subst hk
          obtain ⟨⟨pk, pv⟩, hp, hpk⟩ := List.any_eq_true.mp h
          refine ⟨v0, List.mem_map.mpr ⟨(pk, pv), hp, ?_⟩⟩
          simp only at hpk
          simp [hpk, eq_of_beq hpk]
        · refine ⟨v, List.mem_map.mpr ⟨(k, v), hv, ?_⟩⟩
          simp [beq_eq_false_iff_ne.mpr hk]
      · obtain ⟨⟨pk, pv⟩, hp, hpk⟩ := List.any_eq_true.mp h
        refine ⟨v0, List.mem_map.mpr ⟨(pk, pv), hp, ?_⟩⟩
        simp only at hpk
        simp [hpk, eq_of_beq hpk]

theorem jsInsert_ne_nil (l : List (String × Bool)) (k : String) (v : Bool) :
    jsInsert l k v ≠ [] := by
  cases h : l.any (fun p => p.1 == k) with
  | false =>
    rw [jsInsert_eq_append l k v h]
    simp
  | true =>
    rw [jsInsert_eq_map l k v h]
    obtain ⟨p, hp, _⟩ := List.any_eq_true.mp h
    cases l with
    | nil => cases hp
    | cons q rest => simp

theorem jsInsert_values (l : List (String × Bool)) (k : String)
    (h : ∀ p ∈ l, p.2 = true) : ∀ p ∈ jsInsert l k true, p.2 = true := by
  cases hc : l.any (fun p => p.1 == k) with
  | false =>
    rw [jsInsert_eq_append l k true hc]
    intro p hp
    rcases List.mem_append.mp hp with hp | hp
    · exact h p hp
    · simp only [List.mem_singleton] at hp
      rw [hp]
  | true =>
    rw [jsInsert_eq_map l k true hc]
    intro p hp
    rw [List.mem_map] at hp
    obtain ⟨q, hq, hfq⟩ := hp
    by_cases hqk : q.1 = k
    · simp only [hqk, beq_self_eq_true, if_true] at hfq
      rw [← hfq]
    · simp only [beq_eq_false_iff_ne.mpr hqk, Bool.false_eq_true, if_false] at hfq
      exact hfq ▸ h q hq

theorem observerQualifies_false_of_skip (token other : Token)
    (vmap : String → Option String)
    (h : (other.refId == token.refId || other.actor.isNone) = true) :
    observerQualifies token vmap other = false := by
  unfold observerQualifies
  have h' : (other.refId == token.refId) = true ∨ other.actor.isNone = true := by
    cases h1 : (other.refId == token.refId) with
    | true => exact Or.inl rfl
    | false =>
      rw [h1] at h
      simp only [Bool.false_or] at h
      exact Or.inr h
  rcases h' with h1 | h1
  · simp [h1]
  · simp [h1, Option.isNone_iff_eq_none.mp h1]

theorem observerQualifies_of_branches (token other : Token)
    (vmap : String → Option String)
    (h1 : (other.refId == token.refId || other.actor.isNone) = false)
    (h2 : (jsTruthyOr (vmap other.doc.id) "observed" == "observed"
      || jsTruthyOr (vmap other.doc.id) "observed" == "concealed") = true) :
    observerQualifies token vmap other = true := by
  unfold observerQualifies
  have hr : (other.refId == token.refId) = false := by
    cases hr : (other.refId == token.refId) with
    | false => rfl
    | true => rw [hr] at h1; simp at h1
  have hn : other.actor.isNone = false := by
    cases hn : other.actor.isNone with
    | false => rfl
    | true => rw [hn] at h1; simp at h1
  cases ha : other.actor with
  | none => rw [ha] at hn; simp at hn
  | some a => simp [hr, ha, h2]

theorem observerQualifies_false_of_vis (token other : Token)
    (vmap : String → Option String)
    (h2 : (jsTruthyOr (vmap other.doc.id) "observed" == "observed"
      || jsTruthyOr (vmap other.doc.id) "observed" == "concealed") = false) :
    observerQualifies token vmap other = false := by
  unfold observerQualifies
  simp [h2]

theorem recordLoop_cons_skip (token other : Token) (vmap : String → Option String)
    (rest : List Token) (acc : List (String × Bool))
    (h : (other.refId == token.refId || other.actor.isNone) = true) :
    recordLoop token vmap (other :: rest) acc = recordLoop token vmap rest acc := by
  simp only [recordLoop, h]
  simp

theorem recordLoop_cons_record (token other : Token) (vmap : String → Option String)
    (rest : List Token) (acc : List (String × Bool))
    (h1 : (other.refId == token.refId || other.actor.isNone) = false)
    (h2 : (jsTruthyOr (vmap other.doc.id) "observed" == "observed"
      || jsTruthyOr (vmap other.doc.id) "observed" == "concealed") = true) :
    recordLoop token vmap (other :: rest) acc =
      recordLoop token vmap rest (jsInsert acc other.doc.id true) := by
  simp only [recordLoop, h1, h2]
  simp

theorem recordLoop_cons_novis (token other : Token) (vmap : String → Option String)
    (rest : List Token) (acc : List (String × Bool))
    (h1 : (other.refId == token.refId || other.actor.isNone) = false)
    (h2 : (jsTruthyOr (vmap other.doc.id) "observed" == "observed"
      || jsTruthyOr (vmap other.doc.id) "observed" == "concealed") = false) :
    recordLoop token vmap (other :: rest) acc = recordLoop token vmap rest acc := by
  simp only [recordLoop, h1, h2]
  simp

theorem recordLoop_hasKey (token : Token) (vmap : String → Option String)
    (scene : List Token) :
    ∀ (acc : List (String × Bool)) (k : String),
      hasKey (recordLoop token vmap scene acc) k ↔
        hasKey acc k ∨
          ∃ other ∈ scene, observerQualifies token vmap other = true ∧ other.doc.id = k := by
  induction scene with
  | nil => intro acc k; simp [recordLoop]
  | cons other rest ih =>
    intro acc k
    cases hskip : (other.refId == token.refId || other.actor.isNone) with
    | true =>
      have hq := observerQualifies_false_of_skip token other vmap hskip
      rw [recordLoop_cons_skip token other vmap rest acc hskip, ih]
      simp only [List.mem_cons]
      constructor
      · rintro (h | ⟨o, ho, hqo, hid⟩)
        · exact Or.inl h
        · exact Or.inr ⟨o, Or.inr ho, hqo, hid⟩
      · rintro (h | ⟨o, rfl | ho, hqo, hid⟩)
        · exact Or.inl h
        · rw [hq] at hqo; cases hqo
        · exact Or.inr ⟨o, ho, hqo, hid⟩
    | false =>
      cases hvis : (jsTruthyOr (vmap other.doc.id) "observed" == "observed"
          || jsTruthyOr (vmap other.doc.id) "observed" == "concealed") with
      | true =>
        have hq := observerQualifies_of_branches token other vmap hskip hvis
        rw [recordLoop_cons_record token other vmap rest acc hskip hvis, ih,
          hasKey_jsInsert]
        simp only [List.mem_cons]
        constructor
        · rintro ((h | rfl) | ⟨o, ho, hqo, hid⟩)
          · exact Or.inl h
          · exact Or.inr ⟨other, Or.inl rfl, hq, rfl⟩
          · exact Or.inr ⟨o, Or.inr ho, hqo, hid⟩
        · rintro (h | ⟨o, rfl | ho, hqo, hid⟩)
          · exact Or.inl (Or.inl h)
          · exact Or.inl (Or.inr hid.symm)
          · exact Or.inr ⟨o, ho, hqo, hid⟩
      | false =>
        have hq := observerQualifies_false_of_vis token other vmap hvis
        rw [recordLoop_cons_novis token other vmap rest acc hskip hvis, ih]
        simp only [List.mem_cons]
        constructor
        · rintro (h | ⟨o, ho, hqo, hid⟩)
          · exact Or.inl h
          · exact Or.inr ⟨o, Or.inr ho, hqo, hid⟩
        · rintro (h | ⟨o, rfl | ho, hqo, hid⟩)
          · exact Or.inl h
          · rw [hq] at hqo; cases hqo
          · exact Or.inr ⟨o, ho, hqo, hid⟩

theorem recordLoop_values (token : Token) (vmap : String → Option String)
    (scene : List Token) :
    ∀ (acc : List (String × Bool)), (∀ p ∈ acc, p.2 = true) →
      ∀ p ∈ recordLoop token vmap scene acc, p.2 = true := by
  induction scene with
  | nil => intro acc hacc; simpa [recordLoop] using hacc
  | cons other rest ih =>
    intro acc hacc
    cases hskip : (other.refId == token.refId || other.actor.isNone) with
    | true =>
      rw [recordLoop_cons_skip token other vmap rest acc hskip]
      exact ih acc hacc
    | false =>
      cases hvis : (jsTruthyOr (vmap other.doc.id) "observed" == "observed"
          || jsTruthyOr (vmap other.doc.id) "observed" == "concealed") with
      | true =>
        rw [recordLoop_cons_record token other vmap rest acc hskip hvis]
        exact ih _ (jsInsert_values acc other.doc.id hacc)
      | false =>
        rw [recordLoop_cons_novis token other vmap rest acc hskip hvis]
        exact ih acc hacc

theorem recordFlagsComputed_nil_iff (scene : List Token)
    (vmap : String → Option String) (token : Token) :
    recordFlagsComputed scene vmap token = [] ↔
      ∀ other ∈ scene, observerQualifies token vmap other = false := by
  constructor
  · intro hnil other ho
    cases hq : observerQualifies token vmap other with
    | false => rfl
    | true =>
      have hk : hasKey (recordFlagsComputed scene vmap token) other.doc.id := by
        unfold recordFlagsComputed
        exact (recordLoop_hasKey token vmap scene [] other.doc.id).mpr
          (Or.inr ⟨other, ho, hq, rfl⟩)
      rw [hnil] at hk
      obtain ⟨v, hv⟩ := hk
      cases hv
  · intro hall
    cases hl : recordFlagsComputed scene vmap token with
    | nil => rfl
    | cons p rest =>
      have hk : hasKey (recordFlagsComputed scene vmap token) p.1 := by
        rw [hl]; exact ⟨p.2, by simp⟩
      unfold recordFlagsComputed at hk
      rcases (recordLoop_hasKey token vmap scene [] p.1).mp hk with ⟨v, hv⟩ | ⟨o, ho, hqo, _⟩
      · cases hv
      · rw [hall o ho] at hqo; cases hqo

/-- Claim C6: for each of the condition probes isBlinded, isDazzled and
isDeafened and every host accessor outcome, the probe returns exactly the OR
of the four accessor paths (direct predicate, nested state flag,
set-membership test, collection scan by slug or key): false when every path
reports false or is absent, true as soon as any single path reports true,
regardless of the other paths and regardless of an exception in the collection
scan, which that path reports as false. -/
theorem probes_eq_or_of_four_paths (t : Token) :
    isBlinded t = (probePathDirect t.actor "blinded" || probePathState t.actor "blinded"
      || probePathHas t.actor "blinded" || probePathScan t.actor "blinded") ∧
    isDazzled t = (probePathDirect t.actor "dazzled" || probePathState t.actor "dazzled"
      || probePathHas t.actor "dazzled" || probePathScan t.actor "dazzled") ∧
    isDeafened t = (probePathDirect t.actor "deafened" || probePathState t.actor "deafened"
      || probePathHas t.actor "deafened" || probePathScan t.actor "deafened") :=
  ⟨isBlinded_eq_fourStrategy t, isDazzled_eq_fourStrategy t, isDeafened_eq_fourStrategy t⟩

/-- Claim C7: isInvisibleTo returns false whenever the target lacks the
invisible condition under the four-strategy OR, independent of observer
senses; when the target is invisible it returns false if either accessor
shape reports a see-invisibility sense on the observer actor, and true if
neither shape reports that sense. -/
theorem isInvisibleTo_cases (o t : Token) :
    (condFourStrategy t.actor "invisible" = false → isInvisibleTo o t = false) ∧
    (condFourStrategy t.actor "invisible" = true → observerSeesInvisibility o.actor = true →
      isInvisibleTo o t = false) ∧
    (condFourStrategy t.actor "invisible" = true → observerSeesInvisibility o.actor = false →
      isInvisibleTo o t = true) := by
  refine ⟨fun h1 => ?_, fun h1 h2 => ?_, fun h1 h2 => ?_⟩
  · rw [isInvisibleTo_eq, h1]; rfl
  · rw [isInvisibleTo_eq, h1, h2]; rfl
  · rw [isInvisibleTo_eq, h1, h2]; rfl

/-- Witness for C7 at concrete tokens: an invisible target is invisible to a
plain observer without the see-invisibility sense. -/
theorem isInvisibleTo_cases_witness :
    condFourStrategy tokenInvisible.actor "invisible" = true ∧
    observerSeesInvisibility tokenPlain.actor = false ∧
    isInvisibleTo tokenPlain tokenInvisible = true :=
  ⟨by decide, by decide,
    (isInvisibleTo_cases tokenPlain tokenInvisible).2.2 (by decide) (by decide)⟩

/-- Counterexample for C2 as stated: the invisibility check of
handleInvisibilityChange is not the same four-strategy OR used by the
condition probes.  On an actor whose only positive accessor path for the
invisible condition is the conditions collection scan, the handler check
returns false while the four-strategy probe returns true. -/
theorem handler_check_ne_fourStrategy :
    ¬ (handlerHasInvisibility actorScanOnlyInvisible =
        condFourStrategy (some actorScanOnlyInvisible) "invisible") := by
  decide

/-- Claim C2 amended: the invisibility check of handleInvisibilityChange
equals the OR of only the first three strategies (direct predicate, nested
state flag, set-membership test); the four-strategy OR used by the probes is
that check ORed with the collection scan, so the two agree exactly when the
collection scan is not the sole positive path. -/
theorem handler_check_eq_three_paths (a : Actor) :
    handlerHasInvisibility a =
      (probePathDirect (some a) "invisible" || probePathState (some a) "invisible"
        || probePathHas (some a) "invisible") ∧
    condFourStrategy (some a) "invisible" =
      (handlerHasInvisibility a || probePathScan (some a) "invisible") := by
  constructor
  · rfl
  · have h1 : handlerHasInvisibility a =
        (probePathDirect (some a) "invisible" || probePathState (some a) "invisible"
          || probePathHas (some a) "invisible") := rfl
    rw [h1]
    unfold condFourStrategy
    cases probePathDirect (some a) "invisible" <;>
      cases probePathState (some a) "invisible" <;>
        cases probePathHas (some a) "invisible" <;>
          cases probePathScan (some a) "invisible" <;> rfl

/-- Claim C3: when both references resolve to document identifiers and
canSeeNormally is true, getInvisibilityState returns undetected when the
hasSneakOverride predicate resolves true and hidden when it resolves false,
regardless of any stored flag state (the flags are arbitrary inside the
quantified target). -/
theorem getInvisibilityState_canSeeNormally (observer target : Option Token)
    (h : resolvedIds observer target = true) :
    getInvisibilityState observer target true true = "undetected" ∧
    getInvisibilityState observer target false true = "hidden" := by
  cases observer with
  | none => simp [resolvedIds] at h
  | some obs =>
    cases target with
    | none => simp [resolvedIds] at h
    | some tgt =>
      simp only [resolvedIds, Bool.and_eq_true, Bool.not_eq_true'] at h
      constructor <;> simp [getInvisibilityState, h.1, h.2]

/-- Witness for C3 at concrete tokens with resolving identifiers. -/
theorem getInvisibilityState_canSeeNormally_witness :
    resolvedIds (some tokenPlain) (some tokenFlagged) = true ∧
    getInvisibilityState (some tokenPlain) (some tokenFlagged) true true = "undetected" ∧
    getInvisibilityState (some tokenPlain) (some tokenFlagged) false true = "hidden" :=
  ⟨by decide,
    (getInvisibilityState_canSeeNormally (some tokenPlain) (some tokenFlagged) (by decide)).1,
    (getInvisibilityState_canSeeNormally (some tokenPlain) (some tokenFlagged) (by decide)).2⟩

/-- Claim C4: when both references resolve and canSeeNormally is false,
getInvisibilityState returns hidden when the persisted flag marks this
observer as wasVisible and the sneak predicate resolves false, undetected
when that flag is set and the predicate resolves true, and undetected when no
prior-visibility flag entry exists for this observer. -/
theorem getInvisibilityState_noNormalVision (observer target : Option Token)
    (h : resolvedIds observer target = true) :
    (wasVisibleFlag observer target = true →
      getInvisibilityState observer target false false = "hidden") ∧
    (wasVisibleFlag observer target = true →
      getInvisibilityState observer target true false = "undetected") ∧
    (flagEntry observer target = none →
      ∀ sneak : Bool, getInvisibilityState observer target sneak false = "undetected") := by
  cases observer with
  | none => simp [resolvedIds] at h
  | some obs =>
    cases target with
    | none => simp [resolvedIds] at h
    | some tgt =>
      simp only [resolvedIds, Bool.and_eq_true, Bool.not_eq_true'] at h
      refine ⟨fun hw => ?_, fun hw => ?_, fun he sneak => ?_⟩
      · unfold wasVisibleFlag flagEntry at hw
        simp [getInvisibilityState, h.1, h.2, hw]
      · unfold wasVisibleFlag flagEntry at hw
        simp [getInvisibilityState, h.1, h.2, hw]
      · simp only [flagEntry] at he
        simp [getInvisibilityState, h.1, h.2, he]

/-- Witness for C4 at concrete tokens: tokenFlagged marks observer t0 as
previously visible, so a non-sneaking observer sees it as hidden. -/
theorem getInvisibilityState_noNormalVision_witness :
    resolvedIds (some tokenPlain) (some tokenFlagged) = true ∧
    wasVisibleFlag (some tokenPlain) (some tokenFlagged) = true ∧
    getInvisibilityState (some tokenPlain) (some tokenFlagged) false false = "hidden" ∧
    flagEntry (some obsToken) (some tokenFlagged) = none ∧
    getInvisibilityState (some obsToken) (some tokenFlagged) false false = "undetected" :=
  ⟨by decide, by decide,
    (getInvisibilityState_noNormalVision (some tokenPlain) (some tokenFlagged)
      (by decide)).1 (by decide),
    by decide,
    (getInvisibilityState_noNormalVision (some obsToken) (some tokenFlagged)
      (by decide)).2.2 (by decide) false⟩

/-- Claim C5: when the observer or the target does not resolve to a document
identifier, getInvisibilityState returns the fixed fallback undetected for
every combination of the remaining arguments; the embedding is a total
function, so no exception can propagate. -/
theorem getInvisibilityState_missing_ids (observer target : Option Token)
    (h : resolvedIds observer target = false) (sneak canSee : Bool) :
    getInvisibilityState observer target sneak canSee = "undetected" := by
  cases observer with
  | none => rfl
  | some obs =>
    cases target with
    | none => rfl
    | some tgt =>
      simp only [resolvedIds, Bool.and_eq_false_iff, Bool.not_eq_false'] at h
      rcases h with h | h <;> simp [getInvisibilityState, h]

/-- Witness for C5 at a concrete input with a missing observer reference. -/
theorem getInvisibilityState_missing_ids_witness :
    resolvedIds none (some tokenFlagged) = false ∧
    getInvisibilityState none (some tokenFlagged) true true = "undetected" :=
  ⟨by decide, getInvisibilityState_missing_ids none (some tokenFlagged) (by decide) true true⟩

/-- Claim C10: on the missing-identifier branch and on the final default
branch (identifiers present, canSeeNormally false, no wasVisible flag for
this observer), the result of getInvisibilityState is identical for any two
sneak-predicate outcomes, because the predicate is never consulted there. -/
theorem getInvisibilityState_sneak_not_consulted (observer target : Option Token)
    (canSee s1 s2 : Bool)
    (h : resolvedIds observer target = false ∨
      (resolvedIds observer target = true ∧ canSee = false ∧
        wasVisibleFlag observer target = false)) :
    getInvisibilityState observer target s1 canSee =
      getInvisibilityState observer target s2 canSee := by
  rcases h with h | ⟨hres, hsee, hflag⟩
  · rw [getInvisibilityState_missing_ids observer target h s1 canSee,
      getInvisibilityState_missing_ids observer target h s2 canSee]
  · cases observer with
    | none => rfl
    | some obs =>
      cases target with
      | none => rfl
      | some tgt =>
        simp only [resolvedIds, Bool.and_eq_true, Bool.not_eq_true'] at hres
        unfold wasVisibleFlag flagEntry at hflag
        subst hsee
        simp [getInvisibilityState, hres.1, hres.2, hflag]

/-- Witness for C10 at a concrete default-branch input: opposite sneak
outcomes give the same state. -/
theorem getInvisibilityState_sneak_not_consulted_witness :
    (resolvedIds (some obsToken) (some tokenFlagged) = true ∧
      wasVisibleFlag (some obsToken) (some tokenFlagged) = false) ∧
    getInvisibilityState (some obsToken) (some tokenFlagged) true false =
      getInvisibilityState (some obsToken) (some tokenFlagged) false false :=
  ⟨⟨by decide, by decide⟩,
    getInvisibilityState_sneak_not_consulted (some obsToken) (some tokenFlagged) false true false
      (Or.inr ⟨by decide, rfl, by decide⟩)⟩

/-- Counterexample for C1 as stated: the keys of the recorded flag record are
not exactly the observers whose recorded visibility state was observed or
concealed.  With an empty visibility map, the live observer o1 has no
recorded state at all, yet the source defaults a missing entry to observed:
the record gains the key o1 and a flag write is performed, while the claim
predicts no key and no write. -/
theorem recordFlags_key_for_unrecorded_observer :
    (¬ ((∃ v, ("o1", v) ∈ recordFlagsComputed invScene emptyVmap tokenInvisible) ↔
        (emptyVmap "o1" = some "observed" ∨ emptyVmap "o1" = some "concealed"))) ∧
    handlerHasInvisibility actorInvisibleOnly = true ∧
    recordWritePerformed invScene emptyVmap tokenInvisible = true ∧
    (handleInvisibilityChange invScene emptyVmapOf actorInvisibleOnly).map
        (fun tok => tok.doc.invisibilityFlags) = [some [("o1", true)], none] := by
  refine ⟨?_, by decide, by decide, by decide⟩
  intro hiff
  have hk : ∃ v, ("o1", v) ∈ recordFlagsComputed invScene emptyVmap tokenInvisible :=
    ⟨true, by decide⟩
  rcases hiff.mp hk with h | h <;> exact Option.noConfusion h

/-- Claim C1 amended: when handleInvisibilityChange runs for an actor whose
invisibility check is positive, each scene token bound to that actor gets a
flag record whose keys are exactly the ids of the other tokens with a live
actor whose visibility-map entry toward this token, defaulted to observed
when the map records no truthy entry, is observed or concealed; every
recorded value carries wasVisible true, the namespace is overwritten with the
record exactly when it is non-empty, and no write happens (the namespace is
left untouched) exactly when no observer qualifies. -/
theorem handleInvisibilityChange_records (scene : List Token)
    (vmapOf : Nat → String → Option String) (actor : Actor) (token : Token)
    (hinv : handlerHasInvisibility actor = true)
    (hmem : token ∈ scene) (hbind : tokenBelongsTo token actor = true) :
    updateTokenOnInvisibilityChange scene vmapOf actor token ∈
        handleInvisibilityChange scene vmapOf actor ∧
    (∀ k, hasKey (recordFlagsComputed scene (vmapOf token.refId) token) k ↔
      ∃ other ∈ scene, observerQualifies token (vmapOf token.refId) other = true ∧
        other.doc.id = k) ∧
    (∀ p ∈ recordFlagsComputed scene (vmapOf token.refId) token, p.2 = true) ∧
    (recordWritePerformed scene (vmapOf token.refId) token = true →
      (updateTokenOnInvisibilityChange scene vmapOf actor token).doc.invisibilityFlags =
        some (recordFlagsComputed scene (vmapOf token.refId) token)) ∧
    (recordWritePerformed scene (vmapOf token.refId) token = false →
      (updateTokenOnInvisibilityChange scene vmapOf actor token).doc.invisibilityFlags =
        token.doc.invisibilityFlags) ∧
    (recordWritePerformed scene (vmapOf token.refId) token = false ↔
      ∀ other ∈ scene, observerQualifies token (vmapOf token.refId) other = false) := by
  refine ⟨?_, ?_, ?_, ?_, ?_, ?_⟩
  · exact List.mem_map.mpr ⟨token, hmem, rfl⟩
  · intro k
    rw [recordFlagsComputed, recordLoop_hasKey]
    simp [hasKey]
  · exact recordLoop_values token (vmapOf token.refId) scene [] (by simp)
  · intro hw
    unfold updateTokenOnInvisibilityChange
    rw [hbind, hinv]
    simp only [if_true]
    unfold recordNewNamespace
    rw [hw]
    simp
  · intro hw
    unfold updateTokenOnInvisibilityChange
    rw [hbind, hinv]
    simp only [if_true]
    unfold recordNewNamespace
    rw [hw]
    simp
  · unfold recordWritePerformed
    rw [← recordFlagsComputed_nil_iff scene (vmapOf token.refId) token]
    cases hl : recordFlagsComputed scene (vmapOf token.refId) token <;> simp

/-- Witness for the amended C1 at the concrete scene: the record for the
invisible token holds exactly the observer o1 and is written. -/
theorem handleInvisibilityChange_records_witness :
    (handlerHasInvisibility actorInvisibleOnly = true ∧
      tokenInvisible ∈ invScene ∧
      tokenBelongsTo tokenInvisible actorInvisibleOnly = true ∧
      recordWritePerformed invScene (emptyVmapOf tokenInvisible.refId) tokenInvisible = true) ∧
    (updateTokenOnInvisibilityChange invScene emptyVmapOf actorInvisibleOnly
        tokenInvisible).doc.invisibilityFlags =
      some (recordFlagsComputed invScene (emptyVmapOf tokenInvisible.refId) tokenInvisible) :=
  ⟨⟨by decide, List.mem_cons_self _ _, by decide, by decide⟩,
    (handleInvisibilityChange_records invScene emptyVmapOf actorInvisibleOnly tokenInvisible
      (by decide) (List.mem_cons_self _ _) (by decide)).2.2.2.1 (by decide)⟩

/-- Claim C9: when handleInvisibilityChange runs for an actor whose
invisibility check is negative, every scene token bound to that actor has the
invisibility flag namespace absent afterwards, regardless of its prior
contents (the prior flags are arbitrary inside the quantified token). -/
theorem handleInvisibilityChange_clears (scene : List Token)
    (vmapOf : Nat → String → Option String) (actor : Actor) (token : Token)
    (hinv : handlerHasInvisibility actor = false)
    (hmem : token ∈ scene) (hbind : tokenBelongsTo token actor = true) :
    (updateTokenOnInvisibilityChange scene vmapOf actor token).doc.invisibilityFlags = none ∧
    updateTokenOnInvisibilityChange scene vmapOf actor token ∈
      handleInvisibilityChange scene vmapOf actor := by
  constructor
  · unfold updateTokenOnInvisibilityChange
    rw [hbind, hinv]
    simp
  · exact List.mem_map.mpr ⟨token, hmem, rfl⟩

/-- Witness for C9 at the concrete scene: the stale flags of clearedToken are
removed when its actor is no longer invisible. -/
theorem handleInvisibilityChange_clears_witness :
    (handlerHasInvisibility actorVisible = false ∧
      clearedToken ∈ clearScene ∧
      tokenBelongsTo clearedToken actorVisible = true ∧
      clearedToken.doc.invisibilityFlags = some [("o1", true)]) ∧
    (updateTokenOnInvisibilityChange clearScene emptyVmapOf actorVisible
        clearedToken).doc.invisibilityFlags = none :=
  ⟨⟨by decide, List.mem_cons_self _ _, by decide, by decide⟩,
    (handleInvisibilityChange_clears clearScene emptyVmapOf actorVisible clearedToken
      (by decide) (List.mem_cons_self _ _) (by decide)).1⟩

/-- Claim C8: a missing actor, a missing accessor, or an exception raised
while scanning the conditions collection counts as a negative result for that
strategy only: with no actor every probe returns false; when the collection
scan raises, each probe still returns the OR of the three remaining
strategies; when the direct predicate accessor is missing, isBlinded still
returns the OR of the other three strategies.  The embedded probes are total
functions, so no exception propagates out of a probe. -/
theorem probes_degrade_per_strategy (t o : Token) :
    (t.actor = none →
      isBlinded t = false ∧ isDazzled t = false ∧ isDeafened t = false ∧
        isInvisibleTo o t = false) ∧
    (probeScanThrows t.actor = true →
      (isBlinded t = (probePathDirect t.actor "blinded" || probePathState t.actor "blinded"
        || probePathHas t.actor "blinded") ∧
      isDazzled t = (probePathDirect t.actor "dazzled" || probePathState t.actor "dazzled"
        || probePathHas t.actor "dazzled") ∧
      isDeafened t = (probePathDirect t.actor "deafened" || probePathState t.actor "deafened"
        || probePathHas t.actor "deafened") ∧
      isInvisibleTo o t = ((probePathDirect t.actor "invisible"
        || probePathState t.actor "invisible" || probePathHas t.actor "invisible")
          && !observerSeesInvisibility o.actor))) ∧
    (directAccessorMissing t.actor →
      isBlinded t = (probePathState t.actor "blinded" || probePathHas t.actor "blinded"
        || probePathScan t.actor "blinded")) := by
  refine ⟨fun hnone => ?_, fun hthrow => ?_, fun hmiss => ?_⟩
  · refine ⟨?_, ?_, ?_, ?_⟩ <;> simp [isBlinded, isDazzled, isDeafened, isInvisibleTo, hnone]
  · have hscan : ∀ slug, probePathScan t.actor slug = false := by
      intro slug
      unfold probeScanThrows at hthrow
      unfold probePathScan
      cases ha : t.actor with
      | none => rfl
      | some a =>
        rw [ha] at hthrow
        dsimp only at hthrow ⊢
        cases hc : a.conditions with
        | none => rfl
        | some c =>
          rw [hc] at hthrow
          dsimp only at hthrow
          simp [hthrow]
    refine ⟨?_, ?_, ?_, ?_⟩
    · rw [isBlinded_eq_fourStrategy, condFourStrategy, hscan]; simp
    · rw [isDazzled_eq_fourStrategy, condFourStrategy, hscan]; simp
    · rw [isDeafened_eq_fourStrategy, condFourStrategy, hscan]; simp
    · rw [isInvisibleTo_eq, condFourStrategy, hscan]; simp
  · have hdir : probePathDirect t.actor "blinded" = false := by
      unfold directAccessorMissing at hmiss
      unfold probePathDirect
      cases ha : t.actor with
      | none => rfl
      | some a =>
        rw [ha] at hmiss
        dsimp only at hmiss ⊢
        rw [hmiss]
    rw [isBlinded_eq_fourStrategy, condFourStrategy, hdir]
    simp

/-- Witness for C8 at concrete tokens: an actorless token fails every probe,
and a throwing collection scan still lets the direct predicate report
blinded. -/
theorem probes_degrade_per_strategy_witness :
    (isBlinded tokenPlain = false ∧ isDazzled tokenPlain = false ∧
      isDeafened tokenPlain = false ∧ isInvisibleTo tokenPlain tokenPlain = false) ∧
    (probeScanThrows tokenScanThrows.actor = true ∧
      isBlinded tokenScanThrows = (probePathDirect tokenScanThrows.actor "blinded"
        || probePathState tokenScanThrows.actor "blinded"
        || probePathHas tokenScanThrows.actor "blinded")) :=
  ⟨(probes_degrade_per_strategy tokenPlain tokenPlain).1 rfl,
    by decide,
    ((probes_degrade_per_strategy tokenScanThrows tokenPlain).2.1 (by decide)).1⟩

end PF2eVisioner
